import Mathlib

/-!
Descriptor operations of `kern/syscall/file_syscalls.c`.

A shallow embedding of the system-call layer of the A3 kernel: `sys_dup2`,
`sys_read`, `sys_write`, `sys_lseek` and the unimplemented directory calls.

* The open-file table `curthread->t_filetable->file_handles` is a map from slot
  index to the address of a `struct file_handle` (`none` is `NULL`).
* File handles live in a heap indexed by address; an address without a live
  object models freed (or never allocated) memory, and dereferencing it is
  reported as `outcome.fault`.
* The vnode layer (`VOP_READ`, `VOP_WRITE`, `VOP_STAT`) is an external
  collaborator and is passed in as `vnode_ops`.
* C integers are mathematical integers reduced explicitly to their width:
  `int` is 32-bit, `size_t` is unsigned 32-bit, `off_t` is signed 64-bit (the
  MIPS target of the kernel).
* Every lock operation and every call into the vnode layer is appended to
  `kstate.trace`, so that "no transfer was attempted" is a statement about the
  state.
-/

namespace FileSyscalls

/-! ## Machine integers -/

/-- The value a C `int` (32-bit two's complement) holds after `x` is stored in it. -/
def to_int (x : Int) : Int := (x + 2 ^ 31) % 2 ^ 32 - 2 ^ 31

/-- The value a `size_t` (unsigned 32-bit) holds after `x` is stored in it. -/
def to_size_t (x : Int) : Int := x % 2 ^ 32

/-- The value an `off_t` (signed 64-bit) holds after `x` is stored in it. -/
def to_off_t (x : Int) : Int := (x + 2 ^ 63) % 2 ^ 64 - 2 ^ 63

/-- Range of `int`. -/
def is_int (x : Int) : Prop := -(2 ^ 31) ≤ x ∧ x < 2 ^ 31

/-- Range of `size_t`. -/
def is_size_t (x : Int) : Prop := 0 ≤ x ∧ x < 2 ^ 32

/-- Range of `off_t`. -/
def is_off_t (x : Int) : Prop := -(2 ^ 63) ≤ x ∧ x < 2 ^ 63

instance (x : Int) : Decidable (is_int x) := by unfold is_int; infer_instance

instance (x : Int) : Decidable (is_size_t x) := by unfold is_size_t; infer_instance

instance (x : Int) : Decidable (is_off_t x) := by unfold is_off_t; infer_instance

/-! ## Constants of headers that are not part of the source tree -/

/-- Modelled from the spec: `__OPEN_MAX` of `kern/limits.h` (the spec's
`MAX_DESCRIPTORS`), the length of the open-file table; the header is not
under `src/`, the value is the one of the OS/161 tree. -/
def __OPEN_MAX : Int := 128

/-- Modelled from the spec: the "invalid argument" code of `kern/errno.h`. -/
def EINVAL : Int := 8

/-- Modelled from the spec: the "no such device" code of `kern/errno.h`. -/
def ENODEV : Int := 25

/-- Modelled from the spec: the "bad file descriptor" code of `kern/errno.h`. -/
def EBADF : Int := 30

/-- Modelled from the spec: the "not seekable" code of `kern/errno.h`. -/
def ESPIPE : Int := 33

/-- Modelled from the spec: the "not implemented" code of `kern/errno.h`. -/
def EUNIMP : Int := 2

/-- Modelled from the spec: `SEEK_SET` of `kern/seek.h`. -/
def SEEK_SET : Int := 0

/-- Modelled from the spec: `SEEK_CUR` of `kern/seek.h`. -/
def SEEK_CUR : Int := 1

/-- Modelled from the spec: `SEEK_END` of `kern/seek.h`. -/
def SEEK_END : Int := 2

/-! ## Data model -/

/-- Modelled from the spec: `struct file_handle` of `file.h`, which is not under
`src/`. The fields `fvnode`, `flock`, `cur_po` and `ref_count` are the ones
`file_syscalls.c` dereferences; `flags` is the spec's `access_mode`.
`fvnode = none` is a `NULL` vnode pointer, `flock` is the held / not-held
state of the handle's lock, `cur_po` is an `off_t`, and `ref_count` counts
descriptor slots (a mathematical integer: its C type is not visible). -/
structure file_handle where
  fvnode : Option Nat
  flags : Int
  cur_po : Int
  ref_count : Int
  flock : Bool
deriving DecidableEq, Repr

/-- Direction of a transfer, `enum uio_rw`. -/
inductive uio_rw where
  | UIO_READ
  | UIO_WRITE
deriving DecidableEq, Repr

/-- The single-segment `struct uio` (with its `struct iovec`) that `mk_useruio`
fills in. `uio_segflg` is always `UIO_USERSPACE` and is not represented. -/
structure uio where
  iov_ubase : Int
  iov_len : Int
  uio_iovcnt : Int
  uio_offset : Int
  uio_resid : Int
  uio_rw : uio_rw
  uio_space : Nat
deriving DecidableEq, Repr

/-- What the system calls do to their collaborators, in program order. -/
inductive event where
  | lock_acquire (of : Nat)
  | lock_release (of : Nat)
  | VOP_READ (vn : Nat) (u : uio)
  | VOP_WRITE (vn : Nat) (u : uio)
  | VOP_STAT (vn : Nat)
  | destroy (of : Nat)
deriving DecidableEq, Repr

/-- The kernel state the calls act on: the current thread's file table, the
live file handles by address, the thread's address space, and the trace. -/
structure kstate where
  file_handles : Nat → Option Nat
  heap : Nat → Option file_handle
  t_addrspace : Nat
  trace : List event

/-- The vnode layer. `VOP_READ` / `VOP_WRITE` return the error code and the uio
as the transfer left it; `VOP_STAT` returns the error code and the `st_size`
it stores through the stat pointer it is given. -/
structure vnode_ops where
  VOP_READ : Nat → uio → Int × uio
  VOP_WRITE : Nat → uio → Int × uio
  VOP_STAT : Nat → Int × Int

/-- How a call ends: it returns `result` (and has stored `retval` through its
result pointer, `none` when it stored nothing), or it dereferences a pointer
to no live object. -/
inductive outcome where
  | ret (st : kstate) (result : Int) (retval : Option Int)
  | fault (st : kstate)

/-- The state a call ends in. -/
def outcome.state : outcome → kstate
  | .ret st _ _ => st
  | .fault st => st

/-- The value a call returns, `none` when it does not return. -/
def outcome.result : outcome → Option Int
  | .ret _ r _ => some r
  | .fault _ => none

/-- The value a call stores through its result pointer. -/
def outcome.retval : outcome → Option Int
  | .ret _ _ v => v
  | .fault _ => none

/-! ## State primitives -/

/-- Append an event to the trace. -/
def kstate.log (st : kstate) (e : event) : kstate :=
  { st with trace := st.trace ++ [e] }

/-- Overwrite the handle object at address `a`. -/
def kstate.store (st : kstate) (a : Nat) (h : Option file_handle) : kstate :=
  { st with heap := Function.update st.heap a h }

/-- Overwrite slot `i` of the file table. -/
def kstate.set_slot (st : kstate) (i : Nat) (p : Option Nat) : kstate :=
  { st with file_handles := Function.update st.file_handles i p }

/-- The handle slot `fd` refers to, when the slot is occupied and the handle live. -/
def kstate.handle_at (st : kstate) (fd : Nat) : Option file_handle :=
  match st.file_handles fd with
  | none => none
  | some a => st.heap a

/-- The call `lock_acquire(of->flock)` on the handle at address `a`: the lock is held
when the call returns. -/
def lock_acquire (st : kstate) (a : Nat) : kstate :=
  match st.heap a with
  | none => st
  | some h => (st.store a (some { h with flock := true })).log (event.lock_acquire a)

/-- The call `lock_release(of->flock)` on the handle at address `a`. -/
def lock_release (st : kstate) (a : Nat) : kstate :=
  match st.heap a with
  | none => st
  | some h => (st.store a (some { h with flock := false })).log (event.lock_release a)

/-- The assignment `of->cur_po = v` on the handle at address `a`. -/
def set_cur_po (st : kstate) (a : Nat) (v : Int) : kstate :=
  match st.heap a with
  | none => st
  | some h => st.store a (some { h with cur_po := v })

/-- The assignment `of->ref_count = v` on the handle at address `a`. -/
def set_ref_count (st : kstate) (a : Nat) (v : Int) : kstate :=
  match st.heap a with
  | none => st
  | some h => st.store a (some { h with ref_count := v })

/-! ## The system calls -/

/-- The function `mk_useruio`: sets up the uio for a user-space transfer of `len` bytes
at `offset`. -/
def mk_useruio (st : kstate) (buf : Int) (len : Int) (offset : Int) (rw : uio_rw) : uio :=
  { iov_ubase := buf
    iov_len := len
    uio_iovcnt := 1
    uio_offset := offset
    uio_resid := len
    uio_rw := rw
    uio_space := st.t_addrspace }

/-- Modelled from the spec: `file_close` of `file.c`, which is not under `src/`.
It is the spec's close: bad-descriptor when `fd` is out of range or its slot
is empty, otherwise vacate the slot, that is release the handle (under the
handle's lock decrement `ref_count`; when it reaches zero destroy the handle)
and mark the slot empty. -/
def file_close (st : kstate) (fd : Int) : outcome :=
  if fd < 0 ∨ fd ≥ __OPEN_MAX then .ret st EBADF none
  else
    match st.file_handles fd.toNat with
    | none => .ret st EBADF none
    | some a =>
      match st.heap a with
      | none => .fault st
      | some of =>
        let st1 := lock_acquire st a
        let st2 := set_ref_count st1 a (of.ref_count - 1)
        let st3 :=
          if of.ref_count - 1 = 0 then (st2.store a none).log (event.destroy a)
          else lock_release st2 a
        .ret (st3.set_slot fd.toNat none) 0 none

/-- The function `sys_dup2` (lines 125-153). The return value of `file_close` is
ignored, as in the source; `lock_acquire(of->flock)` is the first dereference
of `of`. -/
def sys_dup2 (st : kstate) (oldfd newfd : Int) : outcome :=
  if oldfd < 0 ∨ newfd < 0 ∨ newfd ≥ __OPEN_MAX ∨ oldfd ≥ __OPEN_MAX then
    .ret st EBADF none
  else
    match st.file_handles oldfd.toNat with
    | none => .ret st EBADF none
    | some a =>
      let closed : outcome :=
        match st.file_handles newfd.toNat with
        | none => .ret st 0 none
        | some _ => file_close st newfd
      match closed with
      | .fault st1 => .fault st1
      | .ret st1 _ _ =>
        let st2 := st1.set_slot newfd.toNat (some a)
        match st2.heap a with
        | none => .fault st2
        | some of =>
          let st3 := lock_acquire st2 a
          let st4 := set_ref_count st3 a (of.ref_count + 1)
          let st5 := lock_release st4 a
          .ret st5 0 (some newfd)

/-- The function `sys_read` (lines 173-229). `int offset = of->cur_po` converts the
handle's position to `int`; `of->cur_po += size` adds the requested size. -/
def sys_read (ops : vnode_ops) (st : kstate) (fd : Int) (buf : Int) (size : Int) : outcome :=
  if fd < 0 ∨ fd ≥ __OPEN_MAX then .ret st EBADF none
  else
    match st.file_handles fd.toNat with
    | none => .ret st EBADF none
    | some a =>
      match st.heap a with
      | none => .fault st
      | some of =>
        match of.fvnode with
        | none => .ret st ENODEV none
        | some vn =>
          let st1 := lock_acquire st a
          let offset := to_int of.cur_po
          let user_uio := mk_useruio st1 buf size offset uio_rw.UIO_READ
          let st2 := st1.log (event.VOP_READ vn user_uio)
          let result := (ops.VOP_READ vn user_uio).1
          let user_uio1 := (ops.VOP_READ vn user_uio).2
          if result ≠ 0 then .ret (lock_release st2 a) result none
          else
            let st3 := set_cur_po st2 a (to_off_t (of.cur_po + size))
            let retval := to_int (to_size_t (size - user_uio1.uio_resid))
            .ret (lock_release st3 a) 0 (some retval)

/-- The function `sys_write` (lines 250-299). As `sys_read`, with `VOP_WRITE`; the
path that returns 0 has no `lock_release`. -/
def sys_write (ops : vnode_ops) (st : kstate) (fd : Int) (buf : Int) (len : Int) : outcome :=
  if fd < 0 ∨ fd ≥ __OPEN_MAX then .ret st EBADF none
  else
    match st.file_handles fd.toNat with
    | none => .ret st EBADF none
    | some a =>
      match st.heap a with
      | none => .fault st
      | some of =>
        match of.fvnode with
        | none => .ret st ENODEV none
        | some vn =>
          let st1 := lock_acquire st a
          let offset := to_int of.cur_po
          let user_uio := mk_useruio st1 buf len offset uio_rw.UIO_WRITE
          let st2 := st1.log (event.VOP_WRITE vn user_uio)
          let result := (ops.VOP_WRITE vn user_uio).1
          let user_uio1 := (ops.VOP_WRITE vn user_uio).2
          if result ≠ 0 then .ret (lock_release st2 a) result none
          else
            let st3 := set_cur_po st2 a (to_off_t (of.cur_po + len))
            let retval := to_int (to_size_t (len - user_uio1.uio_resid))
            .ret st3 0 (some retval)

/-- The `switch (whence)` of `sys_lseek` (lines 329-348), entered with the lock held:
either the function returns from inside the switch (`Sum.inl`), or control
leaves the switch with `new_pos` computed (`Sum.inr`). In the `SEEK_END` case
`VOP_STAT` is handed `vn_stat`, a pointer that line 308 declares and nothing
initialises: it designates no live object. A `VOP_STAT` that returns 0 has
stored the `struct stat` through that pointer, and line 342 reads
`vn_stat->st_size` through it, so that path ends in `outcome.fault` and no
position is computed. A `VOP_STAT` that returns an error is taken to have
stored nothing, and the function returns the error without touching the
pointer itself (lines 338-341). A `NULL` `of->fvnode` makes `VOP_STAT`
dereference it. -/
def lseek_switch (ops : vnode_ops) (st1 : kstate) (a : Nat) (of : file_handle)
    (offset : Int) (whence : Int) : outcome ⊕ (kstate × Int) :=
  if whence = SEEK_SET then .inr (st1, offset)
  else if whence = SEEK_CUR then .inr (st1, to_off_t (of.cur_po + offset))
  else if whence = SEEK_END then
    match of.fvnode with
    | none => .inl (.fault st1)
    | some vn =>
      let st2 := st1.log (event.VOP_STAT vn)
      let result := (ops.VOP_STAT vn).1
      if result ≠ 0 then .inl (.ret (lock_release st2 a) result none)
      else .inl (.fault st2)
  else .inl (.ret (lock_release st1 a) EINVAL none)

/-- The function `sys_lseek` (lines 305-365). The return on a negative `new_pos` has no
`lock_release`; the `SEEK_END` case goes through the uninitialised `vn_stat`
(see `lseek_switch`). -/
def sys_lseek (ops : vnode_ops) (st : kstate) (fd : Int) (offset : Int) (whence : Int) :
    outcome :=
  if fd < 0 ∨ fd ≥ __OPEN_MAX then .ret st EBADF none
  else if fd ≥ 0 ∧ fd < 3 then .ret st ESPIPE none
  else
    match st.file_handles fd.toNat with
    | none => .ret st EBADF none
    | some a =>
      match st.heap a with
      | none => .fault st
      | some of =>
        let st1 := lock_acquire st a
        match lseek_switch ops st1 a of offset whence with
        | .inl early => early
        | .inr (st2, new_pos) =>
          if new_pos < 0 then .ret st2 EINVAL none
          else
            let st3 := set_cur_po st2 a new_pos
            .ret (lock_release st3 a) 0 (some new_pos)

/-- The function `sys_chdir` (lines 374-380). -/
def sys_chdir (st : kstate) (_path : Int) : outcome :=
  .ret st EUNIMP none

/-- The function `sys___getcwd` (lines 386-394). -/
def sys___getcwd (st : kstate) (_buf : Int) (_buflen : Int) : outcome :=
  .ret st EUNIMP none

/-- The function `sys_fstat` (lines 399-406). -/
def sys_fstat (st : kstate) (_fd : Int) (_statptr : Int) : outcome :=
  .ret st EUNIMP none

/-- The function `sys_getdirentry` (lines 411-420). -/
def sys_getdirentry (st : kstate) (_fd : Int) (_buf : Int) (_buflen : Int) : outcome :=
  .ret st EUNIMP none

/-! ## Concrete states and vnode layers -/

/-- A handle open read-write on vnode 7, at position `po`, referenced `rc` times. -/
def file_at (po rc : Int) : file_handle :=
  { fvnode := some 7, flags := 2, cur_po := po, ref_count := rc, flock := false }

/-- A table whose only occupied slot is 3, referring to the handle `h` at address 100. -/
def one_file (h : file_handle) : kstate :=
  { file_handles := fun i => if i = 3 then some 100 else none
    heap := fun a => if a = 100 then some h else none
    t_addrspace := 1
    trace := [] }

/-- The number of bytes a transfer `u` moves on an object of `n` bytes: what is left
between the transfer's offset and byte `n`, at most the bytes asked for. -/
def moved (n : Int) (u : uio) : Int :=
  min u.uio_resid (max 0 (n - u.uio_offset))

/-- A vnode layer whose objects all hold `n` bytes and cannot grow: a transfer moves
the bytes between its offset and byte `n`, and succeeds. -/
def sized_ops (n : Int) : vnode_ops :=
  { VOP_READ := fun _ u =>
      (0, { u with uio_offset := u.uio_offset + moved n u, uio_resid := u.uio_resid - moved n u })
    VOP_WRITE := fun _ u =>
      (0, { u with uio_offset := u.uio_offset + moved n u, uio_resid := u.uio_resid - moved n u })
    VOP_STAT := fun _ => (0, n) }

/-- A vnode layer every operation of which fails with error `e`. -/
def failing_ops (e : Int) : vnode_ops :=
  { VOP_READ := fun _ u => (e, u)
    VOP_WRITE := fun _ u => (e, u)
    VOP_STAT := fun _ => (e, 0) }

/-- A table in which slots 0, 1 and 2 share the console handle at address 10 and slot 4
is open on a different file, the handle `g` at address 20. -/
def std_table (g : file_handle) : kstate :=
  { file_handles := fun i => if i < 3 then some 10 else if i = 4 then some 20 else none
    heap := fun a =>
      if a = 10 then some { fvnode := some 1, flags := 2, cur_po := 0, ref_count := 3, flock := false }
      else if a = 20 then some g else none
    t_addrspace := 1
    trace := [] }

/-- The call `out` is a successful seek of the handle `h` at address `a` to position
`p`: it returns 0, stores `p` through its result pointer, and leaves the
handle as `h` with offset `p` and the lock released. -/
def seeks_to (out : outcome) (a : Nat) (h : file_handle) (p : Int) : Prop :=
  out.result = some 0 ∧ out.retval = some p ∧
    out.state.heap a = some { h with cur_po := p, flock := false }

/-- The fields of a handle that reading, writing and seeking leave alone: the vnode
binding, the access mode and the reference count. -/
def file_handle.fixed (h : file_handle) : Option Nat × Int × Int :=
  (h.fvnode, h.flags, h.ref_count)

/-- The state `st1` differs from `st` at most in the offset (and the lock state) of the
handle at address `a`: the table is the same, the same addresses hold live
handles with the same vnode, mode and count, and every handle other than the
one at `a` has the same offset. -/
def offset_frame (a : Option Nat) (st st1 : kstate) : Prop :=
  st1.file_handles = st.file_handles ∧
  ∀ b, (st1.heap b).map file_handle.fixed = (st.heap b).map file_handle.fixed ∧
    (a ≠ some b →
      (st1.heap b).map file_handle.cur_po = (st.heap b).map file_handle.cur_po)

/-- The address slot `fd` refers to, `none` when `fd` is out of range or the slot empty. -/
def kstate.slot (st : kstate) (fd : Int) : Option Nat :=
  if fd < 0 ∨ fd ≥ __OPEN_MAX then none else st.file_handles fd.toNat

/-- The number of slots below `n` of the table `f` that refer to address `a`. -/
def count_below (f : Nat → Option Nat) (a : Nat) : Nat → Int
  | 0 => 0
  | n + 1 => count_below f a n + (if f n = some a then 1 else 0)

/-- The number of descriptor slots of the table that refer to the handle at `a`. -/
def slot_count (st : kstate) (a : Nat) : Int :=
  count_below st.file_handles a __OPEN_MAX.toNat

/-- The reference-count invariant: every handle a slot of the table refers to is live
and its `ref_count` is the number of slots that refer to it. -/
def refs_ok (st : kstate) : Prop :=
  ∀ i a, i < __OPEN_MAX.toNat → st.file_handles i = some a →
    ∃ h, st.heap a = some h ∧ h.ref_count = slot_count st a

/-! ## Facts about the state primitives -/

theorem lock_acquire_live (st : kstate) (a : Nat) (h : file_handle) (hh : st.heap a = some h) :
    lock_acquire st a =
      { st with heap := Function.update st.heap a (some { h with flock := true })
                trace := st.trace ++ [event.lock_acquire a] } := by
  simp [lock_acquire, hh, kstate.store, kstate.log]

theorem lock_release_live (st : kstate) (a : Nat) (h : file_handle) (hh : st.heap a = some h) :
    lock_release st a =
      { st with heap := Function.update st.heap a (some { h with flock := false })
                trace := st.trace ++ [event.lock_release a] } := by
  simp [lock_release, hh, kstate.store, kstate.log]

theorem set_cur_po_live (st : kstate) (a : Nat) (v : Int) (h : file_handle)
    (hh : st.heap a = some h) :
    set_cur_po st a v =
      { st with heap := Function.update st.heap a (some { h with cur_po := v }) } := by
  simp [set_cur_po, hh, kstate.store]

theorem set_ref_count_live (st : kstate) (a : Nat) (v : Int) (h : file_handle)
    (hh : st.heap a = some h) :
    set_ref_count st a v =
      { st with heap := Function.update st.heap a (some { h with ref_count := v }) } := by
  simp [set_ref_count, hh, kstate.store]

theorem toNat_ne_of_ne (x y : Int) (hx : 0 ≤ x) (hy : 0 ≤ y) (hne : x ≠ y) :
    x.toNat ≠ y.toNat := by
  omega

theorem to_off_t_of_range (x : Int) (h0 : -(2 ^ 63) ≤ x) (h1 : x < 2 ^ 63) : to_off_t x = x := by
  unfold to_off_t
  omega

theorem to_int_to_size_t_of_range (x : Int) (h0 : 0 ≤ x) (h1 : x < 2 ^ 31) :
    to_int (to_size_t x) = x := by
  unfold to_int to_size_t
  omega

/-- The body of `sys_lseek` past its descriptor checks, for a descriptor that is in
range, is not a standard stream, and refers to a live handle. -/
theorem sys_lseek_live (ops : vnode_ops) (st : kstate) (fd o whence : Int) (a : Nat)
    (h : file_handle) (hfd : 3 ≤ fd ∧ fd < __OPEN_MAX)
    (hslot : st.file_handles fd.toNat = some a) (hlive : st.heap a = some h) :
    sys_lseek ops st fd o whence =
      match lseek_switch ops (lock_acquire st a) a h o whence with
      | .inl early => early
      | .inr (st2, new_pos) =>
        if new_pos < 0 then .ret st2 EINVAL none
        else .ret (lock_release (set_cur_po st2 a new_pos) a) 0 (some new_pos) := by
  have h1 : ¬ (fd < 0 ∨ fd ≥ __OPEN_MAX) := by omega
  have h2 : ¬ (fd ≥ 0 ∧ fd < 3) := by omega
  simp only [sys_lseek, h1, h2, if_false, hslot, hlive]

/-- A seek whose switch leaves with a non-negative `new_pos`, the lock held and the
handle otherwise untouched, succeeds at `new_pos`. -/
theorem seeks_to_of_switch (st2 : kstate) (a : Nat) (h : file_handle) (p : Int)
    (hheld : st2.heap a = some { h with flock := true }) (hp : 0 ≤ p) :
    seeks_to
      (if p < 0 then outcome.ret st2 EINVAL none
        else outcome.ret (lock_release (set_cur_po st2 a p) a) 0 (some p)) a h p := by
  have hp1 : ¬ p < 0 := by omega
  simp [seeks_to, hp1, outcome.result, outcome.retval, outcome.state, set_cur_po, hheld,
    lock_release, kstate.store, kstate.log]

theorem offset_frame_refl (a : Option Nat) (st : kstate) : offset_frame a st st :=
  ⟨rfl, fun _ => ⟨rfl, fun _ => rfl⟩⟩

theorem sys_read_frame (ops : vnode_ops) (st : kstate) (fd buf size : Int) :
    offset_frame (st.slot fd) st (sys_read ops st fd buf size).state := by
  by_cases hr : fd < 0 ∨ fd ≥ __OPEN_MAX
  · simp only [sys_read, hr, if_true, outcome.state]
    exact offset_frame_refl _ _
  · cases hslot : st.file_handles fd.toNat with
    | none =>
      simp only [sys_read, hr, if_false, hslot, outcome.state]
      exact offset_frame_refl _ _
    | some a =>
      cases hlive : st.heap a with
      | none =>
        simp only [sys_read, hr, if_false, hslot, hlive, outcome.state]
        exact offset_frame_refl _ _
      | some h =>
        cases hvn : h.fvnode with
        | none =>
          simp only [sys_read, hr, if_false, hslot, hlive, hvn, outcome.state]
          exact offset_frame_refl _ _
        | some vn =>
          have hsl : st.slot fd = some a := by simp [kstate.slot, hr, hslot]
          rw [hsl]
          simp only [sys_read, hr, if_false, hslot, hlive, hvn]
          split
          · refine ⟨?_, fun b => ?_⟩
            · simp [outcome.state, lock_acquire, lock_release, hlive, kstate.store, kstate.log]
            · by_cases hb : b = a
              · subst hb
                simp [outcome.state, lock_acquire, lock_release, hlive, kstate.store,
                  kstate.log, file_handle.fixed]
              · simp [outcome.state, lock_acquire, lock_release, hlive, kstate.store,
                  kstate.log, Function.update, hb]
          · refine ⟨?_, fun b => ?_⟩
            · simp [outcome.state, lock_acquire, lock_release, set_cur_po, hlive,
                kstate.store, kstate.log]
            · by_cases hb : b = a
              · subst hb
                simp [outcome.state, lock_acquire, lock_release, set_cur_po, hlive,
                  kstate.store, kstate.log, file_handle.fixed]
              · simp [outcome.state, lock_acquire, lock_release, set_cur_po, hlive,
                  kstate.store, kstate.log, Function.update, hb]

theorem sys_write_frame (ops : vnode_ops) (st : kstate) (fd buf len : Int) :
    offset_frame (st.slot fd) st (sys_write ops st fd buf len).state := by
  by_cases hr : fd < 0 ∨ fd ≥ __OPEN_MAX
  · simp only [sys_write, hr, if_true, outcome.state]
    exact offset_frame_refl _ _
  · cases hslot : st.file_handles fd.toNat with
    | none =>
      simp only [sys_write, hr, if_false, hslot, outcome.state]
      exact offset_frame_refl _ _
    | some a =>
      cases hlive : st.heap a with
      | none =>
        simp only [sys_write, hr, if_false, hslot, hlive, outcome.state]
        exact offset_frame_refl _ _
      | some h =>
        cases hvn : h.fvnode with
        | none =>
          simp only [sys_write, hr, if_false, hslot, hlive, hvn, outcome.state]
          exact offset_frame_refl _ _
        | some vn =>
          have hsl : st.slot fd = some a := by simp [kstate.slot, hr, hslot]
          rw [hsl]
          simp only [sys_write, hr, if_false, hslot, hlive, hvn]
          split
          · refine ⟨?_, fun b => ?_⟩
            · simp [outcome.state, lock_acquire, lock_release, hlive, kstate.store, kstate.log]
            · by_cases hb : b = a
              · subst hb
                simp [outcome.state, lock_acquire, lock_release, hlive, kstate.store,
                  kstate.log, file_handle.fixed]
              · simp [outcome.state, lock_acquire, lock_release, hlive, kstate.store,
                  kstate.log, Function.update, hb]
          · refine ⟨?_, fun b => ?_⟩
            · simp [outcome.state, lock_acquire, set_cur_po, hlive, kstate.store, kstate.log]
            · by_cases hb : b = a
              · subst hb
                simp [outcome.state, lock_acquire, set_cur_po, hlive, kstate.store,
                  kstate.log, file_handle.fixed]
              · simp [outcome.state, lock_acquire, set_cur_po, hlive, kstate.store,
                  kstate.log, Function.update, hb]

theorem count_below_nonneg (f : Nat → Option Nat) (a : Nat) (n : Nat) :
    0 ≤ count_below f a n := by
  induction n with
  | zero => simp [count_below]
  | succ k ih =>
    simp only [count_below]
    split <;> omega

theorem count_below_pos (f : Nat → Option Nat) (a : Nat) (n i : Nat) (hi : i < n)
    (hf : f i = some a) : 1 ≤ count_below f a n := by
  induction n with
  | zero => omega
  | succ k ih =>
    simp only [count_below]
    by_cases hk : i = k
    · subst hk
      have := count_below_nonneg f a i
      simp only [hf, if_true]
      omega
    · have := ih (by omega)
      split <;> omega

theorem count_below_update (f : Nat → Option Nat) (m : Nat) (v : Option Nat) (a : Nat)
    (n : Nat) :
    count_below (Function.update f m v) a n =
      count_below f a n +
        (if m < n then
          (if v = some a then 1 else 0) - (if f m = some a then 1 else 0)
        else 0) := by
  induction n with
  | zero => simp [count_below]
  | succ k ih =>
    simp only [count_below, ih]
    by_cases hk : m = k
    · subst hk
      simp only [Function.update_same, Nat.lt_irrefl, Nat.lt_succ_self, if_true, if_false]
      omega
    · have hk2 : k ≠ m := fun e => hk e.symm
      simp only [Function.update_noteq hk2]
      by_cases hlt : m < k
      · have hlt2 : m < k + 1 := by omega
        simp only [hlt, hlt2, if_true]
        omega
      · have hlt2 : ¬ m < k + 1 := by omega
        simp only [hlt, hlt2, if_false]
        omega

theorem count_below_two (f : Nat → Option Nat) (a : Nat) (n i j : Nat) (hi : i < n)
    (hj : j < n) (hij : i ≠ j) (hfi : f i = some a) (hfj : f j = some a) :
    2 ≤ count_below f a n := by
  have hu := count_below_update f i none a n
  have hj2 : Function.update f i none j = some a := by
    rw [Function.update_noteq (fun e => hij e.symm)]
    exact hfj
  have hp := count_below_pos (Function.update f i none) a n j hj hj2
  simp only [hi, if_true, hfi] at hu
  simp at hu
  omega

/-- The state `sys_dup2` ends in when `newfd` is empty. -/
theorem sys_dup2_into_empty (st : kstate) (oldfd newfd : Int) (a : Nat) (h : file_handle)
    (hrange : ¬ (oldfd < 0 ∨ newfd < 0 ∨ newfd ≥ __OPEN_MAX ∨ oldfd ≥ __OPEN_MAX))
    (hslot : st.file_handles oldfd.toNat = some a) (hlive : st.heap a = some h)
    (hempty : st.file_handles newfd.toNat = none) :
    ∃ tr, sys_dup2 st oldfd newfd =
      .ret { st with
              file_handles := Function.update st.file_handles newfd.toNat (some a)
              heap := Function.update st.heap a
                (some { h with ref_count := h.ref_count + 1, flock := false })
              trace := tr }
        0 (some newfd) := by
  refine ⟨st.trace ++ [event.lock_acquire a] ++ [event.lock_release a], ?_⟩
  simp [sys_dup2, hrange, hslot, hempty, kstate.set_slot, lock_acquire, set_ref_count,
    lock_release, hlive, kstate.store, kstate.log]

/-- The state `sys_dup2` ends in when `newfd` holds another live handle. -/
theorem sys_dup2_over_other (st : kstate) (oldfd newfd : Int) (a b : Nat)
    (h g : file_handle)
    (hrange : ¬ (oldfd < 0 ∨ newfd < 0 ∨ newfd ≥ __OPEN_MAX ∨ oldfd ≥ __OPEN_MAX))
    (hslot : st.file_handles oldfd.toNat = some a) (hlive : st.heap a = some h)
    (hb : st.file_handles newfd.toNat = some b) (hg : st.heap b = some g) (hba : b ≠ a) :
    ∃ tr, sys_dup2 st oldfd newfd =
      .ret { st with
              file_handles := Function.update st.file_handles newfd.toNat (some a)
              heap := Function.update
                (Function.update st.heap b
                  (if g.ref_count - 1 = 0 then none
                    else some { g with ref_count := g.ref_count - 1, flock := false })) a
                (some { h with ref_count := h.ref_count + 1, flock := false })
              trace := tr }
        0 (some newfd) := by
  have hab : a ≠ b := fun e => hba e.symm
  have hrn : ¬ (newfd < 0 ∨ newfd ≥ __OPEN_MAX) := by omega
  by_cases hz : g.ref_count - 1 = 0
  · refine ⟨st.trace ++ [event.lock_acquire b] ++ [event.destroy b]
      ++ [event.lock_acquire a] ++ [event.lock_release a], ?_⟩
    simp [sys_dup2, hrange, hslot, hb, file_close, hrn, hg, kstate.set_slot, lock_acquire,
      set_ref_count, lock_release, hlive, kstate.store, kstate.log, hz, hab, hba,
      Function.update]
  · refine ⟨st.trace ++ [event.lock_acquire b] ++ [event.lock_release b]
      ++ [event.lock_acquire a] ++ [event.lock_release a], ?_⟩
    simp [sys_dup2, hrange, hslot, hb, file_close, hrn, hg, kstate.set_slot, lock_acquire,
      set_ref_count, lock_release, hlive, kstate.store, kstate.log, hz, hab, hba,
      Function.update]

/-- The state `sys_dup2` ends in when `newfd` already refers to the handle of `oldfd`
and that handle has another reference. -/
theorem sys_dup2_over_same (st : kstate) (oldfd newfd : Int) (a : Nat) (h : file_handle)
    (hrange : ¬ (oldfd < 0 ∨ newfd < 0 ∨ newfd ≥ __OPEN_MAX ∨ oldfd ≥ __OPEN_MAX))
    (hslot : st.file_handles oldfd.toNat = some a) (hlive : st.heap a = some h)
    (hb : st.file_handles newfd.toNat = some a) (hnz : h.ref_count - 1 ≠ 0) :
    ∃ tr, sys_dup2 st oldfd newfd =
      .ret { st with
              file_handles := Function.update st.file_handles newfd.toNat (some a)
              heap := Function.update st.heap a
                (some { h with ref_count := h.ref_count - 1 + 1, flock := false })
              trace := tr }
        0 (some newfd) := by
  have hrn : ¬ (newfd < 0 ∨ newfd ≥ __OPEN_MAX) := by omega
  refine ⟨st.trace ++ [event.lock_acquire a] ++ [event.lock_release a]
    ++ [event.lock_acquire a] ++ [event.lock_release a], ?_⟩
  simp [sys_dup2, hrange, hslot, hb, file_close, hrn, kstate.set_slot, lock_acquire,
    set_ref_count, lock_release, hlive, kstate.store, kstate.log, hnz]

/-- Installing `a` in slot `n` keeps the reference-count invariant when every handle
reachable afterwards is live with the count the new table gives it. -/
theorem refs_ok_install (st : kstate) (n a : Nat) (hp : Nat → Option file_handle)
    (tr : List event) (hcount : ∀ c,
      (∃ i, i < __OPEN_MAX.toNat ∧ Function.update st.file_handles n (some a) i = some c) →
      ∃ h1, hp c = some h1 ∧
        h1.ref_count = slot_count st c +
          (if n < __OPEN_MAX.toNat then
            (if some a = some c then 1 else 0) - (if st.file_handles n = some c then 1 else 0)
          else 0)) :
    refs_ok { st with
              file_handles := Function.update st.file_handles n (some a)
              heap := hp
              trace := tr } := by
  intro i c hi hs
  obtain ⟨h1, hh1, hrc⟩ := hcount c ⟨i, hi, hs⟩
  refine ⟨h1, hh1, ?_⟩
  rw [hrc]
  simp only [slot_count]
  rw [count_below_update]

/-- The standard table satisfies the reference-count invariant: the console handle is
referred to by slots 0, 1 and 2 and has count 3, the file of slot 4 has count 1. -/
theorem std_table_refs_ok : refs_ok (std_table (file_at 7 1)) := by
  intro i a _ hs
  by_cases h3 : i < 3
  · have ha : a = 10 := by
      simp only [std_table, h3, if_true] at hs
      exact (Option.some.inj hs).symm
    subst ha
    exact ⟨_, rfl, by set_option maxRecDepth 100000 in decide⟩
  · by_cases h4 : i = 4
    · have ha : a = 20 := by
        simp only [std_table, h3, h4, if_true, if_false] at hs
        exact (Option.some.inj hs).symm
      subst ha
      exact ⟨_, rfl, by set_option maxRecDepth 100000 in decide⟩
    · simp [std_table, h3, h4] at hs

/-! ## Theorems -/

/-- C1 (evaluation at the failing input): reading 10 bytes at position 0 of a 4-byte
object succeeds and reports 4 bytes transferred, yet leaves the handle's
offset at 10, the requested size, not at 0 + 4; the read that follows
immediately issues its transfer at offset 10, not at byte 4. -/
theorem sys_read_short_read_offset :
    (sys_read (sized_ops 4) (one_file (file_at 0 1)) 3 0 10).result = some 0 ∧
    (sys_read (sized_ops 4) (one_file (file_at 0 1)) 3 0 10).retval = some 4 ∧
    ((sys_read (sized_ops 4) (one_file (file_at 0 1)) 3 0 10).state.handle_at 3).map
      file_handle.cur_po = some 10 ∧
    (sys_read (sized_ops 4)
        (sys_read (sized_ops 4) (one_file (file_at 0 1)) 3 0 10).state 3 0 10).state.trace =
      [event.lock_acquire 100,
        event.VOP_READ 7 { iov_ubase := 0, iov_len := 10, uio_iovcnt := 1, uio_offset := 0,
                           uio_resid := 10, uio_rw := uio_rw.UIO_READ, uio_space := 1 },
        event.lock_release 100,
        event.lock_acquire 100,
        event.VOP_READ 7 { iov_ubase := 0, iov_len := 10, uio_iovcnt := 1, uio_offset := 10,
                           uio_resid := 10, uio_rw := uio_rw.UIO_READ, uio_space := 1 },
        event.lock_release 100] := by
  decide

/-- C2 (evaluation at the failing input): writing 10 bytes at position 0 of an object
that takes only 4 succeeds and reports 4 bytes written, yet leaves the
handle's offset at 10, the requested length, not at 0 + 4. -/
theorem sys_write_short_write_offset :
    (sys_write (sized_ops 4) (one_file (file_at 0 1)) 3 0 10).result = some 0 ∧
    (sys_write (sized_ops 4) (one_file (file_at 0 1)) 3 0 10).retval = some 4 ∧
    ((sys_write (sized_ops 4) (one_file (file_at 0 1)) 3 0 10).state.handle_at 3).map
      file_handle.cur_po = some 10 := by
  decide

/-- C3 (evaluation at the failing input): `sys_dup2(3, 3)` on a slot whose handle has
reference count 1 closes the slot first, which destroys the handle; the slot
is then made to point at the destroyed object, and the call does not return
success: its next step dereferences that object. -/
theorem sys_dup2_self_destroys :
    (sys_dup2 (one_file (file_at 5 1)) 3 3).result = none ∧
    (sys_dup2 (one_file (file_at 5 1)) 3 3).state.file_handles 3 = some 100 ∧
    (sys_dup2 (one_file (file_at 5 1)) 3 3).state.heap 100 = none ∧
    (sys_dup2 (one_file (file_at 5 1)) 3 3).state.handle_at 3 = none ∧
    event.destroy 100 ∈ (sys_dup2 (one_file (file_at 5 1)) 3 3).state.trace := by
  decide

/-- C4: for distinct in-range descriptors, `oldfd` holding the handle `h` (at address
`a`) and `newfd` empty or holding a different handle, `sys_dup2` returns 0
and stores `newfd`; afterwards slot `newfd` refers to `a`, `h` has one more
reference and is otherwise as it was (same vnode, mode and offset), every
other slot is unchanged, and a previous occupant `g` of `newfd` has been
released once: its count is one less, and it is destroyed when that is zero. -/
theorem sys_dup2_installs (st : kstate) (oldfd newfd : Int) (a : Nat) (h : file_handle)
    (hold : 0 ≤ oldfd ∧ oldfd < __OPEN_MAX) (hnew : 0 ≤ newfd ∧ newfd < __OPEN_MAX)
    (hne : oldfd ≠ newfd)
    (hslot : st.file_handles oldfd.toNat = some a) (hlive : st.heap a = some h)
    (hocc : st.file_handles newfd.toNat = none ∨
      ∃ b g, st.file_handles newfd.toNat = some b ∧ b ≠ a ∧ st.heap b = some g) :
    (sys_dup2 st oldfd newfd).result = some 0 ∧
    (sys_dup2 st oldfd newfd).retval = some newfd ∧
    (sys_dup2 st oldfd newfd).state.file_handles newfd.toNat = some a ∧
    (sys_dup2 st oldfd newfd).state.heap a =
      some { h with ref_count := h.ref_count + 1, flock := false } ∧
    (∀ i, i ≠ newfd.toNat →
      (sys_dup2 st oldfd newfd).state.file_handles i = st.file_handles i) ∧
    (∀ b g, st.file_handles newfd.toNat = some b → st.heap b = some g →
      (sys_dup2 st oldfd newfd).state.heap b =
        if g.ref_count - 1 = 0 then none
        else some { g with ref_count := g.ref_count - 1, flock := false }) ∧
    (∀ c, c ≠ a → st.file_handles newfd.toNat ≠ some c →
      (sys_dup2 st oldfd newfd).state.heap c = st.heap c) := by
  obtain ⟨ho0, ho1⟩ := hold
  obtain ⟨hn0, hn1⟩ := hnew
  have hidx : oldfd.toNat ≠ newfd.toNat := toNat_ne_of_ne oldfd newfd ho0 hn0 hne
  have hrange : ¬ (oldfd < 0 ∨ newfd < 0 ∨ newfd ≥ __OPEN_MAX ∨ oldfd ≥ __OPEN_MAX) := by
    omega
  rcases hocc with hempty | ⟨b, g, hb, hba, hg⟩
  · have hout : sys_dup2 st oldfd newfd =
        .ret { st with
                file_handles := Function.update st.file_handles newfd.toNat (some a)
                heap := Function.update st.heap a
                  (some { h with ref_count := h.ref_count + 1, flock := false })
                trace := st.trace ++ [event.lock_acquire a] ++ [event.lock_release a] }
          0 (some newfd) := by
      simp [sys_dup2, hrange, hslot, hempty, kstate.set_slot, lock_acquire, set_ref_count,
        lock_release, hlive, kstate.store, kstate.log]
    rw [hout]
    refine ⟨rfl, rfl, ?_, ?_, ?_, ?_, ?_⟩
    · simp [outcome.state]
    · simp [outcome.state]
    · intro i hi
      simp [outcome.state, Function.update, hi]
    · intro b g hb
      simp [hempty] at hb
    · intro c hc _
      simp [outcome.state, Function.update, hc]
  · have hab : a ≠ b := fun e => hba e.symm
    have hrn : ¬ (newfd < 0 ∨ newfd ≥ __OPEN_MAX) := by omega
    by_cases hz : g.ref_count - 1 = 0
    · have hout : sys_dup2 st oldfd newfd =
          .ret { st with
                  file_handles := Function.update
                    (Function.update st.file_handles newfd.toNat none) newfd.toNat (some a)
                  heap := Function.update (Function.update st.heap b none) a
                    (some { h with ref_count := h.ref_count + 1, flock := false })
                  trace := st.trace ++ [event.lock_acquire b] ++ [event.destroy b]
                    ++ [event.lock_acquire a] ++ [event.lock_release a] }
            0 (some newfd) := by
        simp [sys_dup2, hrange, hslot, hb, file_close, hrn, hg, kstate.set_slot, lock_acquire,
          set_ref_count, lock_release, hlive, kstate.store, kstate.log, hz, hab, hba,
          Function.update]
      rw [hout]
      refine ⟨rfl, rfl, ?_, ?_, ?_, ?_, ?_⟩
      · simp [outcome.state]
      · simp [outcome.state]
      · intro i hi
        simp [outcome.state, Function.update, hi]
      · intro b1 g1 hb1 hg1
        have e1 : b1 = b := by rw [hb] at hb1; exact (Option.some.inj hb1).symm
        subst e1
        have e2 : g1 = g := by rw [hg] at hg1; exact (Option.some.inj hg1).symm
        subst e2
        simp [outcome.state, Function.update, hz, hba]
      · intro c hc hcb
        have hcb1 : c ≠ b := fun e => hcb (by rw [hb, e])
        simp [outcome.state, Function.update, hc, hcb1]
    · have hout : sys_dup2 st oldfd newfd =
          .ret { st with
                  file_handles := Function.update
                    (Function.update st.file_handles newfd.toNat none) newfd.toNat (some a)
                  heap := Function.update
                    (Function.update st.heap b
                      (some { g with ref_count := g.ref_count - 1, flock := false })) a
                    (some { h with ref_count := h.ref_count + 1, flock := false })
                  trace := st.trace ++ [event.lock_acquire b] ++ [event.lock_release b]
                    ++ [event.lock_acquire a] ++ [event.lock_release a] }
            0 (some newfd) := by
        simp [sys_dup2, hrange, hslot, hb, file_close, hrn, hg, kstate.set_slot, lock_acquire,
          set_ref_count, lock_release, hlive, kstate.store, kstate.log, hz, hab, hba,
          Function.update]
      rw [hout]
      refine ⟨rfl, rfl, ?_, ?_, ?_, ?_, ?_⟩
      · simp [outcome.state]
      · simp [outcome.state]
      · intro i hi
        simp [outcome.state, Function.update, hi]
      · intro b1 g1 hb1 hg1
        have e1 : b1 = b := by rw [hb] at hb1; exact (Option.some.inj hb1).symm
        subst e1
        have e2 : g1 = g := by rw [hg] at hg1; exact (Option.some.inj hg1).symm
        subst e2
        simp [outcome.state, Function.update, hz, hba]
      · intro c hc hcb
        have hcb1 : c ≠ b := fun e => hcb (by rw [hb, e])
        simp [outcome.state, Function.update, hc, hcb1]

/-- Witness of C4, the spec's scenario: `duplicate(1, 4)` with descriptor 4 open on a
different file, whose handle has no other reference. -/
theorem sys_dup2_installs_witness :
    (sys_dup2 (std_table (file_at 7 1)) 1 4).result = some 0 ∧
    (sys_dup2 (std_table (file_at 7 1)) 1 4).retval = some 4 ∧
    (sys_dup2 (std_table (file_at 7 1)) 1 4).state.file_handles (4 : Int).toNat = some 10 ∧
    (sys_dup2 (std_table (file_at 7 1)) 1 4).state.heap 10 =
      some { fvnode := some 1, flags := 2, cur_po := 0, ref_count := 3 + 1, flock := false } ∧
    (sys_dup2 (std_table (file_at 7 1)) 1 4).state.heap 20 = none :=
  have w := sys_dup2_installs (std_table (file_at 7 1)) 1 4 10
    { fvnode := some 1, flags := 2, cur_po := 0, ref_count := 3, flock := false }
    (by decide) (by decide) (by decide) (by decide) (by decide)
    (Or.inr ⟨20, file_at 7 1, by decide, by decide, by decide⟩)
  ⟨w.1, w.2.1, w.2.2.1, w.2.2.2.1,
    (w.2.2.2.2.2.1 20 (file_at 7 1) (by decide) (by decide)).trans (by decide)⟩

/-- C5 (counterexample): with the handle at offset `2 ^ 63 - 1`, `SEEK_CUR` with offset
argument 1 has the non-negative candidate position `c + o = 2 ^ 63`, yet the
call returns `EINVAL` and the offset stays `2 ^ 63 - 1`: the sum is taken in
`off_t`. And `SEEK_END` with offset argument -10 on a 100-byte object, whose
size query succeeds, does not yield position 90: the call ends in the
dereference of the uninitialised `vn_stat` and reports nothing. -/
theorem sys_lseek_position_fails :
    (0 ≤ (file_at (2 ^ 63 - 1) 1).cur_po + 1 ∧
      (sys_lseek (sized_ops 100) (one_file (file_at (2 ^ 63 - 1) 1)) 3 1 SEEK_CUR).result =
        some EINVAL ∧
      ((sys_lseek (sized_ops 100) (one_file (file_at (2 ^ 63 - 1) 1)) 3 1
          SEEK_CUR).state.handle_at 3).map file_handle.cur_po = some (2 ^ 63 - 1)) ∧
    ((sized_ops 100).VOP_STAT 7 = (0, 100) ∧
      (sys_lseek (sized_ops 100) (one_file (file_at 5 1)) 3 (-10) SEEK_END).result = none ∧
      (sys_lseek (sized_ops 100) (one_file (file_at 5 1)) 3 (-10) SEEK_END).retval = none ∧
      ((sys_lseek (sized_ops 100) (one_file (file_at 5 1)) 3 (-10)
          SEEK_END).state.handle_at 3).map file_handle.cur_po = some 5) := by
  decide

/-- C5 (amended): on an in-range descriptor `fd >= 3` whose handle `h` has offset `c`,
`sys_lseek` computes the position `o` for `SEEK_SET` and `c + o` for
`SEEK_CUR`, the sum in `off_t` arithmetic, which is the exact sum whenever
that is below `2 ^ 63`; whenever the position is non-negative the call returns
0, stores the position as the handle's offset and reports it. (`SEEK_END` is
not covered.) -/
theorem sys_lseek_position (ops : vnode_ops) (st : kstate) (fd o : Int) (a : Nat)
    (h : file_handle) (hfd : 3 ≤ fd ∧ fd < __OPEN_MAX)
    (hslot : st.file_handles fd.toNat = some a) (hlive : st.heap a = some h) :
    (0 ≤ o → seeks_to (sys_lseek ops st fd o SEEK_SET) a h o) ∧
    (0 ≤ to_off_t (h.cur_po + o) →
      seeks_to (sys_lseek ops st fd o SEEK_CUR) a h (to_off_t (h.cur_po + o))) ∧
    (0 ≤ h.cur_po + o → h.cur_po + o < 2 ^ 63 →
      seeks_to (sys_lseek ops st fd o SEEK_CUR) a h (h.cur_po + o)) := by
  have hacq : (lock_acquire st a).heap a = some { h with flock := true } := by
    simp [lock_acquire, hlive, kstate.store, kstate.log]
  have hset : ∀ x, 0 ≤ x → seeks_to (sys_lseek ops st fd x SEEK_SET) a h x := by
    intro x hx
    rw [sys_lseek_live ops st fd x SEEK_SET a h hfd hslot hlive]
    simpa [lseek_switch] using seeks_to_of_switch (lock_acquire st a) a h x hacq hx
  have hcur : ∀ x, 0 ≤ to_off_t (h.cur_po + x) →
      seeks_to (sys_lseek ops st fd x SEEK_CUR) a h (to_off_t (h.cur_po + x)) := by
    intro x hx
    rw [sys_lseek_live ops st fd x SEEK_CUR a h hfd hslot hlive]
    simpa [lseek_switch, SEEK_CUR, SEEK_SET] using
      seeks_to_of_switch (lock_acquire st a) a h _ hacq hx
  refine ⟨hset o, hcur o, ?_⟩
  intro h0 h1
  have e : to_off_t (h.cur_po + o) = h.cur_po + o := to_off_t_of_range _ (by omega) h1
  have := hcur o (by rw [e]; exact h0)
  rwa [e] at this

/-- Witness of C5: with the handle at offset 5, `SEEK_SET` 20 gives 20 and `SEEK_CUR` 20
gives 25. -/
theorem sys_lseek_position_witness :
    seeks_to (sys_lseek (sized_ops 100) (one_file (file_at 5 1)) 3 20 SEEK_SET)
      100 (file_at 5 1) 20 ∧
    seeks_to (sys_lseek (sized_ops 100) (one_file (file_at 5 1)) 3 20 SEEK_CUR)
      100 (file_at 5 1) (5 + 20) :=
  have w := sys_lseek_position (sized_ops 100) (one_file (file_at 5 1)) 3 20 100 (file_at 5 1)
    (by decide) (by decide) (by decide)
  ⟨w.1 (by decide), w.2.2 (by decide) (by decide)⟩

/-- C6 (evaluation at the failing input): `sys_lseek(3, -200, SEEK_END)` on a 100-byte
object whose size query succeeds has the negative position 100 - 200, yet
the call does not return `EINVAL`: after `VOP_STAT` it dereferences the
uninitialised `vn_stat` and returns nothing, with the lock still held. The
same offset argument with `SEEK_SET` does return `EINVAL`, offset untouched. -/
theorem sys_lseek_end_no_einval :
    (sized_ops 100).VOP_STAT 7 = (0, 100) ∧
    (100 : Int) + (-200) < 0 ∧
    (sys_lseek (sized_ops 100) (one_file (file_at 5 1)) 3 (-200) SEEK_END).result = none ∧
    (sys_lseek (sized_ops 100) (one_file (file_at 5 1)) 3 (-200) SEEK_END).result ≠
      some EINVAL ∧
    (sys_lseek (sized_ops 100) (one_file (file_at 5 1)) 3 (-200) SEEK_END).state.trace =
      [event.lock_acquire 100, event.VOP_STAT 7] ∧
    (sys_lseek (sized_ops 100) (one_file (file_at 5 1)) 3 (-200) SEEK_SET).result =
      some EINVAL ∧
    ((sys_lseek (sized_ops 100) (one_file (file_at 5 1)) 3 (-200)
        SEEK_SET).state.handle_at 3).map file_handle.cur_po = some 5 := by
  decide

/-- C7: for `fd` in {0, 1, 2}, whatever the offset, the `whence` and the table,
`sys_lseek` returns `ESPIPE`, stores no position, and ends in the state it
started in (no slot, handle, lock or trace entry differs). -/
theorem sys_lseek_std_stream (ops : vnode_ops) (st : kstate) (fd o whence : Int)
    (hfd : fd = 0 ∨ fd = 1 ∨ fd = 2) :
    sys_lseek ops st fd o whence = .ret st ESPIPE none := by
  have h1 : ¬ (fd < 0 ∨ fd ≥ __OPEN_MAX) := by
    unfold __OPEN_MAX
    omega
  have h2 : fd ≥ 0 ∧ fd < 3 := by omega
  simp only [sys_lseek, h1, h2, if_false, if_true, and_self]

/-- Witness of C7, the spec's scenario `seek(1, 0, SEEK_SET)`. -/
theorem sys_lseek_std_stream_witness :
    sys_lseek (sized_ops 100) (std_table (file_at 0 1)) 1 0 SEEK_SET =
      .ret (std_table (file_at 0 1)) ESPIPE none :=
  sys_lseek_std_stream (sized_ops 100) (std_table (file_at 0 1)) 1 0 SEEK_SET
    (Or.inr (Or.inl rfl))

/-- C8 (counterexample): descriptor 3 is in range and its slot holds a handle with a
backing vnode, yet `sys_read` returns `EBADF`, because that is the error the
vnode layer reported for the transfer. -/
theorem sys_read_ebadf_valid_fd :
    (sys_read (failing_ops EBADF) (one_file (file_at 0 1)) 3 0 10).result = some EBADF ∧
    ¬ ((3 : Int) < 0 ∨ (3 : Int) ≥ __OPEN_MAX ∨
        (one_file (file_at 0 1)).file_handles (3 : Int).toNat = none) := by
  decide

/-- C8 (amended): for `sys_read` and `sys_write` alike, when `fd` is outside
`[0, __OPEN_MAX)` or its slot is empty the call returns `EBADF`, and when the
slot's handle has no backing vnode it returns `ENODEV`; in both cases the
call ends in the state it started in (no transfer and no lock operation in
the trace, no offset, slot or count changed). Conversely a call that returns
`EBADF` has such an `fd`, or it handed on an `EBADF` that `VOP_READ` /
`VOP_WRITE` itself returned. -/
theorem read_write_descriptor_errors (ops : vnode_ops) (st : kstate) (fd buf size : Int) :
    ((fd < 0 ∨ fd ≥ __OPEN_MAX ∨ st.file_handles fd.toNat = none) →
      sys_read ops st fd buf size = .ret st EBADF none ∧
      sys_write ops st fd buf size = .ret st EBADF none) ∧
    (∀ a h, 0 ≤ fd → fd < __OPEN_MAX → st.file_handles fd.toNat = some a →
      st.heap a = some h → h.fvnode = none →
      sys_read ops st fd buf size = .ret st ENODEV none ∧
      sys_write ops st fd buf size = .ret st ENODEV none) ∧
    ((sys_read ops st fd buf size).result = some EBADF →
      (fd < 0 ∨ fd ≥ __OPEN_MAX ∨ st.file_handles fd.toNat = none) ∨
      ∃ a h vn, st.file_handles fd.toNat = some a ∧ st.heap a = some h ∧
        h.fvnode = some vn ∧
        (ops.VOP_READ vn (mk_useruio st buf size (to_int h.cur_po) uio_rw.UIO_READ)).1
          = EBADF) ∧
    ((sys_write ops st fd buf size).result = some EBADF →
      (fd < 0 ∨ fd ≥ __OPEN_MAX ∨ st.file_handles fd.toNat = none) ∨
      ∃ a h vn, st.file_handles fd.toNat = some a ∧ st.heap a = some h ∧
        h.fvnode = some vn ∧
        (ops.VOP_WRITE vn (mk_useruio st buf size (to_int h.cur_po) uio_rw.UIO_WRITE)).1
          = EBADF) := by
  refine ⟨?_, ?_, ?_, ?_⟩
  · intro hbad
    by_cases hr : fd < 0 ∨ fd ≥ __OPEN_MAX
    · simp [sys_read, sys_write, hr]
    · have hnone : st.file_handles fd.toNat = none := by
        rcases hbad with h1 | h1 | h1
        · exact absurd (Or.inl h1) hr
        · exact absurd (Or.inr h1) hr
        · exact h1
      simp [sys_read, sys_write, hr, hnone]
  · intro a h h0 h1 hslot hlive hvn
    have hr : ¬ (fd < 0 ∨ fd ≥ __OPEN_MAX) := by omega
    simp [sys_read, sys_write, hr, hslot, hlive, hvn]
  · intro hres
    by_cases hr : fd < 0 ∨ fd ≥ __OPEN_MAX
    · rcases hr with h1 | h1
      · exact Or.inl (Or.inl h1)
      · exact Or.inl (Or.inr (Or.inl h1))
    · cases hslot : st.file_handles fd.toNat with
      | none => exact Or.inl (Or.inr (Or.inr rfl))
      | some a =>
        cases hlive : st.heap a with
        | none => simp [sys_read, hr, hslot, hlive, outcome.result] at hres
        | some h =>
          cases hvn : h.fvnode with
          | none =>
            simp [sys_read, hr, hslot, hlive, hvn, outcome.result, ENODEV, EBADF] at hres
          | some vn =>
            refine Or.inr ⟨a, h, vn, rfl, hlive, hvn, ?_⟩
            have hsp : (lock_acquire st a).t_addrspace = st.t_addrspace := by
              simp [lock_acquire, hlive, kstate.store, kstate.log]
            simp only [sys_read, hr, if_false, hslot, hlive, hvn, mk_useruio, hsp] at hres
            by_cases he : (ops.VOP_READ vn
                (mk_useruio st buf size (to_int h.cur_po) uio_rw.UIO_READ)).1 = 0
            · simp only [mk_useruio] at he
              simp [he, outcome.result, EBADF] at hres
            · simp only [mk_useruio] at he
              simpa [he, outcome.result, mk_useruio] using hres
  · intro hres
    by_cases hr : fd < 0 ∨ fd ≥ __OPEN_MAX
    · rcases hr with h1 | h1
      · exact Or.inl (Or.inl h1)
      · exact Or.inl (Or.inr (Or.inl h1))
    · cases hslot : st.file_handles fd.toNat with
      | none => exact Or.inl (Or.inr (Or.inr rfl))
      | some a =>
        cases hlive : st.heap a with
        | none => simp [sys_write, hr, hslot, hlive, outcome.result] at hres
        | some h =>
          cases hvn : h.fvnode with
          | none =>
            simp [sys_write, hr, hslot, hlive, hvn, outcome.result, ENODEV, EBADF] at hres
          | some vn =>
            refine Or.inr ⟨a, h, vn, rfl, hlive, hvn, ?_⟩
            have hsp : (lock_acquire st a).t_addrspace = st.t_addrspace := by
              simp [lock_acquire, hlive, kstate.store, kstate.log]
            simp only [sys_write, hr, if_false, hslot, hlive, hvn, mk_useruio, hsp] at hres
            by_cases he : (ops.VOP_WRITE vn
                (mk_useruio st buf size (to_int h.cur_po) uio_rw.UIO_WRITE)).1 = 0
            · simp only [mk_useruio] at he
              simp [he, outcome.result, EBADF] at hres
            · simp only [mk_useruio] at he
              simpa [he, outcome.result, mk_useruio] using hres

/-- Witness of C8: descriptor 200 is out of range, so both calls return `EBADF` in the
state they started in; descriptor 3 holding a handle without a vnode gives
`ENODEV` likewise. -/
theorem read_write_descriptor_errors_witness :
    (sys_read (sized_ops 4) (one_file (file_at 0 1)) 200 0 5 =
        .ret (one_file (file_at 0 1)) EBADF none ∧
      sys_write (sized_ops 4) (one_file (file_at 0 1)) 200 0 5 =
        .ret (one_file (file_at 0 1)) EBADF none) ∧
    (sys_read (sized_ops 4) (one_file { file_at 0 1 with fvnode := none }) 3 0 5 =
        .ret (one_file { file_at 0 1 with fvnode := none }) ENODEV none ∧
      sys_write (sized_ops 4) (one_file { file_at 0 1 with fvnode := none }) 3 0 5 =
        .ret (one_file { file_at 0 1 with fvnode := none }) ENODEV none) :=
  ⟨(read_write_descriptor_errors (sized_ops 4) (one_file (file_at 0 1)) 200 0 5).1
      (Or.inr (Or.inl (by decide))),
    (read_write_descriptor_errors (sized_ops 4)
      (one_file { file_at 0 1 with fvnode := none }) 3 0 5).2.1
      100 { file_at 0 1 with fvnode := none } (by decide) (by decide) (by decide) (by decide)
      (by decide)⟩

/-- C9: `sys_dup2` returns `EBADF` exactly when `oldfd` or `newfd` is outside
`[0, __OPEN_MAX)` or the slot of `oldfd` is empty; and a call that returns
`EBADF` ends in the state it started in: `newfd` is not closed, no count is
touched, no lock operation is in the trace. -/
theorem sys_dup2_ebadf (st : kstate) (oldfd newfd : Int) :
    ((sys_dup2 st oldfd newfd).result = some EBADF ↔
      (oldfd < 0 ∨ oldfd ≥ __OPEN_MAX ∨ newfd < 0 ∨ newfd ≥ __OPEN_MAX ∨
        st.file_handles oldfd.toNat = none)) ∧
    ((sys_dup2 st oldfd newfd).result = some EBADF →
      sys_dup2 st oldfd newfd = .ret st EBADF none) := by
  by_cases hr : oldfd < 0 ∨ newfd < 0 ∨ newfd ≥ __OPEN_MAX ∨ oldfd ≥ __OPEN_MAX
  · have hbad : oldfd < 0 ∨ oldfd ≥ __OPEN_MAX ∨ newfd < 0 ∨ newfd ≥ __OPEN_MAX ∨
        st.file_handles oldfd.toNat = none := by
      rcases hr with h1 | h1 | h1 | h1
      · exact Or.inl h1
      · exact Or.inr (Or.inr (Or.inl h1))
      · exact Or.inr (Or.inr (Or.inr (Or.inl h1)))
      · exact Or.inr (Or.inl h1)
    have hout : sys_dup2 st oldfd newfd = .ret st EBADF none := by
      simp only [sys_dup2, hr, if_true]
    exact ⟨⟨fun _ => hbad, fun _ => by rw [hout]; rfl⟩, fun _ => hout⟩
  · cases hslot : st.file_handles oldfd.toNat with
    | none =>
      have hout : sys_dup2 st oldfd newfd = .ret st EBADF none := by
        simp only [sys_dup2, hr, if_false, hslot]
      exact ⟨⟨fun _ => Or.inr (Or.inr (Or.inr (Or.inr rfl))), fun _ => by rw [hout]; rfl⟩,
        fun _ => hout⟩
    | some a =>
      have hno : (sys_dup2 st oldfd newfd).result ≠ some EBADF := by
        simp only [sys_dup2, hr, if_false, hslot]
        split
        · simp [outcome.result]
        · split
          · simp [outcome.result]
          · simp [outcome.result, EBADF]
      refine ⟨⟨fun hres => absurd hres hno, fun hbad => ?_⟩, fun hres => absurd hres hno⟩
      rcases hbad with h1 | h1 | h1 | h1 | h1
      · exact absurd (Or.inl h1) hr
      · exact absurd (Or.inr (Or.inr (Or.inr h1))) hr
      · exact absurd (Or.inr (Or.inl h1)) hr
      · exact absurd (Or.inr (Or.inr (Or.inl h1))) hr
      · simp at h1

/-- Witness of C9: with descriptor 5 empty, `sys_dup2(5, 4)` returns `EBADF` and the
occupied slot 4 is left alone. -/
theorem sys_dup2_ebadf_witness :
    sys_dup2 (std_table (file_at 7 1)) 5 4 = .ret (std_table (file_at 7 1)) EBADF none :=
  have w := sys_dup2_ebadf (std_table (file_at 7 1)) 5 4
  w.2 (w.1.2 (Or.inr (Or.inr (Or.inr (Or.inr (by decide))))))

/-- C10: on an in-range descriptor whose slot holds the live handle `h` with backing
vnode `vn`, when the delegated `VOP_READ` (for `sys_read`) or `VOP_WRITE` (for
`sys_write`) returns a non-zero error, the call returns exactly that error,
stores no count, and leaves the handle as `h` with the lock released: the
offset is its value before the call. -/
theorem read_write_error_passthrough (ops : vnode_ops) (st : kstate) (fd buf size : Int)
    (a : Nat) (h : file_handle) (vn : Nat) (hfd : 0 ≤ fd ∧ fd < __OPEN_MAX)
    (hslot : st.file_handles fd.toNat = some a) (hlive : st.heap a = some h)
    (hvn : h.fvnode = some vn) :
    ((ops.VOP_READ vn (mk_useruio st buf size (to_int h.cur_po) uio_rw.UIO_READ)).1 ≠ 0 →
      (sys_read ops st fd buf size).result =
        some (ops.VOP_READ vn (mk_useruio st buf size (to_int h.cur_po) uio_rw.UIO_READ)).1 ∧
      (sys_read ops st fd buf size).retval = none ∧
      (sys_read ops st fd buf size).state.heap a = some { h with flock := false } ∧
      ((sys_read ops st fd buf size).state.handle_at fd.toNat).map file_handle.cur_po =
        some h.cur_po) ∧
    ((ops.VOP_WRITE vn (mk_useruio st buf size (to_int h.cur_po) uio_rw.UIO_WRITE)).1 ≠ 0 →
      (sys_write ops st fd buf size).result =
        some (ops.VOP_WRITE vn (mk_useruio st buf size (to_int h.cur_po) uio_rw.UIO_WRITE)).1 ∧
      (sys_write ops st fd buf size).retval = none ∧
      (sys_write ops st fd buf size).state.heap a = some { h with flock := false } ∧
      ((sys_write ops st fd buf size).state.handle_at fd.toNat).map file_handle.cur_po =
        some h.cur_po) := by
  have hr : ¬ (fd < 0 ∨ fd ≥ __OPEN_MAX) := by omega
  have hsp : (lock_acquire st a).t_addrspace = st.t_addrspace := by
    simp [lock_acquire, hlive, kstate.store, kstate.log]
  constructor
  · intro he
    simp only [mk_useruio] at he
    simp [sys_read, hr, hslot, hlive, hvn, mk_useruio, hsp, he, outcome.result, outcome.retval,
      outcome.state, lock_acquire, lock_release, kstate.store, kstate.log, kstate.handle_at]
  · intro he
    simp only [mk_useruio] at he
    simp [sys_write, hr, hslot, hlive, hvn, mk_useruio, hsp, he, outcome.result,
      outcome.retval, outcome.state, lock_acquire, lock_release, kstate.store, kstate.log,
      kstate.handle_at]

/-- Witness of C10: with a vnode layer that fails every transfer with error 32, reading
and writing through descriptor 3 return 32 and the offset stays 5. -/
theorem read_write_error_passthrough_witness :
    ((sys_read (failing_ops 32) (one_file (file_at 5 1)) 3 0 10).result = some 32 ∧
      ((sys_read (failing_ops 32) (one_file (file_at 5 1)) 3 0 10).state.handle_at 3).map
        file_handle.cur_po = some 5) ∧
    ((sys_write (failing_ops 32) (one_file (file_at 5 1)) 3 0 10).result = some 32 ∧
      ((sys_write (failing_ops 32) (one_file (file_at 5 1)) 3 0 10).state.handle_at 3).map
        file_handle.cur_po = some 5) :=
  have w := read_write_error_passthrough (failing_ops 32) (one_file (file_at 5 1)) 3 0 10 100
    (file_at 5 1) 7 (by decide) (by decide) (by decide) (by decide)
  have r := w.1 (by decide)
  have s := w.2 (by decide)
  ⟨⟨r.1, r.2.2.2⟩, ⟨s.1, s.2.2.2⟩⟩

/-- C11 (counterexample): a write of `2 ^ 31` bytes that the vnode layer takes whole
(residual 0) succeeds, and the value stored for the caller is `-(2 ^ 31)`, not
the `2 ^ 31` bytes transferred: the count goes through an `int`. -/
theorem sys_write_count_wraps :
    (sys_write (sized_ops (2 ^ 31)) (one_file (file_at 0 1)) 3 0 (2 ^ 31)).result = some 0 ∧
    ((sized_ops (2 ^ 31)).VOP_WRITE 7
      (mk_useruio (one_file (file_at 0 1)) 0 (2 ^ 31) 0 uio_rw.UIO_WRITE)).2.uio_resid = 0 ∧
    (sys_write (sized_ops (2 ^ 31)) (one_file (file_at 0 1)) 3 0 (2 ^ 31)).retval =
      some (-(2 ^ 31)) ∧
    (sys_write (sized_ops (2 ^ 31)) (one_file (file_at 0 1)) 3 0 (2 ^ 31)).retval ≠
      some (2 ^ 31 - 0) := by
  decide

/-- C11 (amended): for `sys_read` and `sys_write` alike, a call that returns 0 was made
on a descriptor whose slot holds a live handle with a backing vnode, and the
value it stores for the caller is `n - r` (`n` the requested length, `r` the
residual the delegated transfer left) computed in `size_t` and stored in an
`int`; that is exactly `n - r`, the bytes transferred, whenever
`0 <= r <= n` and `n - r < 2 ^ 31`. -/
theorem read_write_reported_count (ops : vnode_ops) (st : kstate) (fd buf n : Int) :
    ((sys_read ops st fd buf n).result = some 0 →
      ∃ a h vn, st.file_handles fd.toNat = some a ∧ st.heap a = some h ∧
        h.fvnode = some vn ∧
        (sys_read ops st fd buf n).retval =
          some (to_int (to_size_t (n -
            (ops.VOP_READ vn
              (mk_useruio st buf n (to_int h.cur_po) uio_rw.UIO_READ)).2.uio_resid))) ∧
        (0 ≤ (ops.VOP_READ vn
              (mk_useruio st buf n (to_int h.cur_po) uio_rw.UIO_READ)).2.uio_resid →
          (ops.VOP_READ vn
              (mk_useruio st buf n (to_int h.cur_po) uio_rw.UIO_READ)).2.uio_resid ≤ n →
          n - (ops.VOP_READ vn
              (mk_useruio st buf n (to_int h.cur_po) uio_rw.UIO_READ)).2.uio_resid < 2 ^ 31 →
          (sys_read ops st fd buf n).retval =
            some (n - (ops.VOP_READ vn
              (mk_useruio st buf n (to_int h.cur_po) uio_rw.UIO_READ)).2.uio_resid))) ∧
    ((sys_write ops st fd buf n).result = some 0 →
      ∃ a h vn, st.file_handles fd.toNat = some a ∧ st.heap a = some h ∧
        h.fvnode = some vn ∧
        (sys_write ops st fd buf n).retval =
          some (to_int (to_size_t (n -
            (ops.VOP_WRITE vn
              (mk_useruio st buf n (to_int h.cur_po) uio_rw.UIO_WRITE)).2.uio_resid))) ∧
        (0 ≤ (ops.VOP_WRITE vn
              (mk_useruio st buf n (to_int h.cur_po) uio_rw.UIO_WRITE)).2.uio_resid →
          (ops.VOP_WRITE vn
              (mk_useruio st buf n (to_int h.cur_po) uio_rw.UIO_WRITE)).2.uio_resid ≤ n →
          n - (ops.VOP_WRITE vn
              (mk_useruio st buf n (to_int h.cur_po) uio_rw.UIO_WRITE)).2.uio_resid < 2 ^ 31 →
          (sys_write ops st fd buf n).retval =
            some (n - (ops.VOP_WRITE vn
              (mk_useruio st buf n (to_int h.cur_po) uio_rw.UIO_WRITE)).2.uio_resid))) := by
  constructor
  · intro hres
    by_cases hr : fd < 0 ∨ fd ≥ __OPEN_MAX
    · simp [sys_read, hr, outcome.result, EBADF] at hres
    · cases hslot : st.file_handles fd.toNat with
      | none => simp [sys_read, hr, hslot, outcome.result, EBADF] at hres
      | some a =>
        cases hlive : st.heap a with
        | none => simp [sys_read, hr, hslot, hlive, outcome.result] at hres
        | some h =>
          cases hvn : h.fvnode with
          | none => simp [sys_read, hr, hslot, hlive, hvn, outcome.result, ENODEV] at hres
          | some vn =>
            have hsp : (lock_acquire st a).t_addrspace = st.t_addrspace := by
              simp [lock_acquire, hlive, kstate.store, kstate.log]
            have hu : mk_useruio (lock_acquire st a) buf n (to_int h.cur_po) uio_rw.UIO_READ =
                mk_useruio st buf n (to_int h.cur_po) uio_rw.UIO_READ := by
              simp [mk_useruio, hsp]
            by_cases he : (ops.VOP_READ vn
                (mk_useruio st buf n (to_int h.cur_po) uio_rw.UIO_READ)).1 = 0
            · have hret : (sys_read ops st fd buf n).retval =
                  some (to_int (to_size_t (n - (ops.VOP_READ vn
                    (mk_useruio st buf n (to_int h.cur_po) uio_rw.UIO_READ)).2.uio_resid))) := by
                simp only [sys_read, hr, if_false, hslot, hlive, hvn, hu]
                simp [he, outcome.retval]
              refine ⟨a, h, vn, rfl, hlive, hvn, hret, ?_⟩
              intro h0 h1 h2
              rw [hret, to_int_to_size_t_of_range _ (by omega) h2]
            · simp only [sys_read, hr, if_false, hslot, hlive, hvn, hu] at hres
              simp [he, outcome.result] at hres
  · intro hres
    by_cases hr : fd < 0 ∨ fd ≥ __OPEN_MAX
    · simp [sys_write, hr, outcome.result, EBADF] at hres
    · cases hslot : st.file_handles fd.toNat with
      | none => simp [sys_write, hr, hslot, outcome.result, EBADF] at hres
      | some a =>
        cases hlive : st.heap a with
        | none => simp [sys_write, hr, hslot, hlive, outcome.result] at hres
        | some h =>
          cases hvn : h.fvnode with
          | none => simp [sys_write, hr, hslot, hlive, hvn, outcome.result, ENODEV] at hres
          | some vn =>
            have hsp : (lock_acquire st a).t_addrspace = st.t_addrspace := by
              simp [lock_acquire, hlive, kstate.store, kstate.log]
            have hu : mk_useruio (lock_acquire st a) buf n (to_int h.cur_po) uio_rw.UIO_WRITE =
                mk_useruio st buf n (to_int h.cur_po) uio_rw.UIO_WRITE := by
              simp [mk_useruio, hsp]
            by_cases he : (ops.VOP_WRITE vn
                (mk_useruio st buf n (to_int h.cur_po) uio_rw.UIO_WRITE)).1 = 0
            · have hret : (sys_write ops st fd buf n).retval =
                  some (to_int (to_size_t (n - (ops.VOP_WRITE vn
                    (mk_useruio st buf n (to_int h.cur_po) uio_rw.UIO_WRITE)).2.uio_resid))) := by
                simp only [sys_write, hr, if_false, hslot, hlive, hvn, hu]
                simp [he, outcome.retval]
              refine ⟨a, h, vn, rfl, hlive, hvn, hret, ?_⟩
              intro h0 h1 h2
              rw [hret, to_int_to_size_t_of_range _ (by omega) h2]
            · simp only [sys_write, hr, if_false, hslot, hlive, hvn, hu] at hres
              simp [he, outcome.result] at hres

/-- Witness of C11: asking for 10 bytes of a 4-byte object leaves residual 6, and both
calls store 10 - 6 for the caller. -/
theorem read_write_reported_count_witness :
    (sys_read (sized_ops 4) (one_file (file_at 0 1)) 3 0 10).retval = some (10 - 6) ∧
    (sys_write (sized_ops 4) (one_file (file_at 0 1)) 3 0 10).retval = some (10 - 6) := by
  have w := read_write_reported_count (sized_ops 4) (one_file (file_at 0 1)) 3 0 10
  constructor
  · obtain ⟨a, h, vn, hs, hl, hv, _, hex⟩ := w.1 (by decide)
    have ha : a = 100 := by simpa [one_file] using hs.symm
    subst ha
    have hh : h = file_at 0 1 := by simpa [one_file] using hl.symm
    subst hh
    have hvn : vn = 7 := by simpa [file_at] using hv.symm
    subst hvn
    exact (hex (by decide) (by decide) (by decide)).trans (by decide)
  · obtain ⟨a, h, vn, hs, hl, hv, _, hex⟩ := w.2 (by decide)
    have ha : a = 100 := by simpa [one_file] using hs.symm
    subst ha
    have hh : h = file_at 0 1 := by simpa [one_file] using hl.symm
    subst hh
    have hvn : vn = 7 := by simpa [file_at] using hv.symm
    subst hvn
    exact (hex (by decide) (by decide) (by decide)).trans (by decide)

/-- C12: on an in-range descriptor `fd >= 3` whose slot holds a live handle with a
non-negative offset `c` (an `off_t`), `sys_lseek(fd, 0, SEEK_CUR)` returns 0,
reports `c`, and leaves the handle's offset equal to `c`. -/
theorem sys_lseek_cur_zero (ops : vnode_ops) (st : kstate) (fd : Int) (a : Nat)
    (h : file_handle) (hfd : 3 ≤ fd ∧ fd < __OPEN_MAX)
    (hslot : st.file_handles fd.toNat = some a) (hlive : st.heap a = some h)
    (hc0 : 0 ≤ h.cur_po) (hc1 : h.cur_po < 2 ^ 63) :
    seeks_to (sys_lseek ops st fd 0 SEEK_CUR) a h h.cur_po ∧
    ((sys_lseek ops st fd 0 SEEK_CUR).state.handle_at fd.toNat).map file_handle.cur_po =
      some h.cur_po := by
  have hacq : (lock_acquire st a).heap a = some { h with flock := true } := by
    simp [lock_acquire, hlive, kstate.store, kstate.log]
  have e : to_off_t (h.cur_po + 0) = h.cur_po := by
    rw [Int.add_zero]
    exact to_off_t_of_range _ (by omega) hc1
  have hseek : seeks_to (sys_lseek ops st fd 0 SEEK_CUR) a h h.cur_po := by
    rw [sys_lseek_live ops st fd 0 SEEK_CUR a h hfd hslot hlive]
    have hs := seeks_to_of_switch (lock_acquire st a) a h h.cur_po hacq hc0
    simpa [lseek_switch, SEEK_CUR, SEEK_SET, e, to_off_t_of_range h.cur_po (by omega) hc1]
      using hs
  refine ⟨hseek, ?_⟩
  have hsl : (sys_lseek ops st fd 0 SEEK_CUR).state.file_handles fd.toNat = some a := by
    rw [sys_lseek_live ops st fd 0 SEEK_CUR a h hfd hslot hlive]
    have hp : ¬ h.cur_po < 0 := by omega
    simp [lseek_switch, SEEK_CUR, SEEK_SET, to_off_t_of_range h.cur_po (by omega) hc1, hp,
      outcome.state, lock_acquire, lock_release, set_cur_po, hlive, kstate.store, kstate.log,
      hslot]
  simp [kstate.handle_at, hsl, hseek.2.2]

/-- Witness of C12: a handle left at offset 5 reports 5 and stays at 5. -/
theorem sys_lseek_cur_zero_witness :
    seeks_to (sys_lseek (sized_ops 100) (one_file (file_at 5 1)) 3 0 SEEK_CUR)
      100 (file_at 5 1) 5 :=
  (sys_lseek_cur_zero (sized_ops 100) (one_file (file_at 5 1)) 3 100 (file_at 5 1)
    (by decide) (by decide) (by decide) (by decide) (by decide)).1

/-- C13 (counterexample): descriptor 1 is in range and its slot is empty, yet
`sys_lseek` reports `ESPIPE`, not `EBADF`. -/
theorem sys_lseek_empty_std_slot :
    (one_file (file_at 0 1)).file_handles (1 : Int).toNat = none ∧
    (0 ≤ (1 : Int) ∧ (1 : Int) < __OPEN_MAX) ∧
    (sys_lseek (sized_ops 100) (one_file (file_at 0 1)) 1 0 SEEK_SET).result = some ESPIPE ∧
    (sys_lseek (sized_ops 100) (one_file (file_at 0 1)) 1 0 SEEK_SET).result ≠ some EBADF := by
  decide

/-- C13 (amended): for a descriptor whose slot is empty, whatever the offset and the
`whence`, `sys_lseek` reports `EBADF` when `3 <= fd < __OPEN_MAX`, and
`ESPIPE` when `fd` is 0, 1 or 2 (the standard-stream check comes before the
slot is looked at); in both cases the state is unchanged. -/
theorem sys_lseek_empty_slot (ops : vnode_ops) (st : kstate) (fd o whence : Int)
    (hempty : st.file_handles fd.toNat = none) :
    (3 ≤ fd → fd < __OPEN_MAX → sys_lseek ops st fd o whence = .ret st EBADF none) ∧
    (0 ≤ fd → fd < 3 → sys_lseek ops st fd o whence = .ret st ESPIPE none) := by
  constructor
  · intro h0 h1
    have h1 : ¬ (fd < 0 ∨ fd ≥ __OPEN_MAX) := by omega
    have h2 : ¬ (fd ≥ 0 ∧ fd < 3) := by omega
    simp only [sys_lseek, h1, h2, if_false, hempty]
  · intro h0 h1
    have h3 : ¬ (fd < 0 ∨ fd ≥ __OPEN_MAX) := by
      unfold __OPEN_MAX
      omega
    have h2 : fd ≥ 0 ∧ fd < 3 := ⟨h0, h1⟩
    simp only [sys_lseek, h3, h2, if_false, if_true, and_self]

/-- Witness of C13: with only descriptor 3 open, seeking on descriptor 9 reports
`EBADF`. -/
theorem sys_lseek_empty_slot_witness :
    sys_lseek (sized_ops 100) (one_file (file_at 0 1)) 9 0 SEEK_SET =
      .ret (one_file (file_at 0 1)) EBADF none :=
  (sys_lseek_empty_slot (sized_ops 100) (one_file (file_at 0 1)) 9 0 SEEK_SET
    (by decide)).1 (by decide) (by decide)

/-- C14: whatever their arguments, `sys_chdir`, `sys___getcwd`, `sys_fstat` and
`sys_getdirentry` return `EUNIMP`, which is not 0, store nothing through a
result pointer, and end in the state they started in. -/
theorem stubs_unimplemented (st : kstate) (path buf buflen fd statptr : Int) :
    sys_chdir st path = .ret st EUNIMP none ∧
    sys___getcwd st buf buflen = .ret st EUNIMP none ∧
    sys_fstat st fd statptr = .ret st EUNIMP none ∧
    sys_getdirentry st fd buf buflen = .ret st EUNIMP none ∧
    EUNIMP ≠ 0 := by
  refine ⟨rfl, rfl, rfl, rfl, ?_⟩
  decide

/-- C15 (evaluation at the failing input): a successful `sys_write` on a handle whose
lock is free returns 0 with the lock still held, the trace holding the
`lock_acquire` and the transfer but no `lock_release`; `sys_read` on the same
input does release it. -/
theorem sys_write_leaves_lock_held :
    ((one_file (file_at 0 1)).heap 100).map file_handle.flock = some false ∧
    (sys_write (sized_ops 100) (one_file (file_at 0 1)) 3 0 10).result = some 0 ∧
    ((sys_write (sized_ops 100) (one_file (file_at 0 1)) 3 0 10).state.heap 100).map
      file_handle.flock = some true ∧
    (sys_write (sized_ops 100) (one_file (file_at 0 1)) 3 0 10).state.trace =
      [event.lock_acquire 100,
        event.VOP_WRITE 7 { iov_ubase := 0, iov_len := 10, uio_iovcnt := 1, uio_offset := 0,
                            uio_resid := 10, uio_rw := uio_rw.UIO_WRITE, uio_space := 1 }] ∧
    ((sys_read (sized_ops 100) (one_file (file_at 0 1)) 3 0 10).state.heap 100).map
      file_handle.flock = some false := by
  decide

/-- C16 (evaluation at the failing input): `sys_lseek(3, -1, SEEK_SET)` on a handle whose
lock is free returns `EINVAL` with the lock still held, the trace holding the
`lock_acquire` alone; the `EINVAL` return for an unrecognised `whence` does
release it. -/
theorem sys_lseek_negative_leaves_lock_held :
    ((one_file (file_at 5 1)).heap 100).map file_handle.flock = some false ∧
    (sys_lseek (sized_ops 100) (one_file (file_at 5 1)) 3 (-1) SEEK_SET).result =
      some EINVAL ∧
    ((sys_lseek (sized_ops 100) (one_file (file_at 5 1)) 3 (-1) SEEK_SET).state.heap 100).map
      file_handle.flock = some true ∧
    (sys_lseek (sized_ops 100) (one_file (file_at 5 1)) 3 (-1) SEEK_SET).state.trace =
      [event.lock_acquire 100] ∧
    (sys_lseek (sized_ops 100) (one_file (file_at 5 1)) 3 0 7).result = some EINVAL ∧
    ((sys_lseek (sized_ops 100) (one_file (file_at 5 1)) 3 0 7).state.heap 100).map
      file_handle.flock = some false := by
  decide

/-- C18 (evaluation at the failing input): `sys_lseek(3, 2 ^ 31, SEEK_SET)` succeeds,
reports `2 ^ 31` and stores it as the handle's offset, but the `sys_read` and
the `sys_write` that follow hand the vnode layer a transfer at offset
`-(2 ^ 31)`: the offset passes through the local `int offset`. -/
theorem seek_then_transfer_truncates :
    (sys_lseek (sized_ops 100) (one_file (file_at 0 1)) 3 (2 ^ 31) SEEK_SET).result = some 0 ∧
    (sys_lseek (sized_ops 100) (one_file (file_at 0 1)) 3 (2 ^ 31) SEEK_SET).retval =
      some (2 ^ 31) ∧
    ((sys_lseek (sized_ops 100) (one_file (file_at 0 1)) 3 (2 ^ 31)
        SEEK_SET).state.handle_at 3).map file_handle.cur_po = some (2 ^ 31) ∧
    (sys_read (sized_ops 100)
        (sys_lseek (sized_ops 100) (one_file (file_at 0 1)) 3 (2 ^ 31) SEEK_SET).state
        3 0 10).state.trace =
      [event.lock_acquire 100, event.lock_release 100, event.lock_acquire 100,
        event.VOP_READ 7 { iov_ubase := 0, iov_len := 10, uio_iovcnt := 1,
                           uio_offset := -(2 ^ 31), uio_resid := 10,
                           uio_rw := uio_rw.UIO_READ, uio_space := 1 },
        event.lock_release 100] ∧
    (sys_write (sized_ops 100)
        (sys_lseek (sized_ops 100) (one_file (file_at 0 1)) 3 (2 ^ 31) SEEK_SET).state
        3 0 10).state.trace =
      [event.lock_acquire 100, event.lock_release 100, event.lock_acquire 100,
        event.VOP_WRITE 7 { iov_ubase := 0, iov_len := 10, uio_iovcnt := 1,
                            uio_offset := -(2 ^ 31), uio_resid := 10,
                            uio_rw := uio_rw.UIO_WRITE, uio_space := 1 }] := by
  decide

/-- C19 (evaluation at the failing input): `sys_lseek(3, 0, SEEK_END)` on an open file
whose size query succeeds hands `VOP_STAT` the uninitialised `vn_stat` to
store a `struct stat` through, and ends in the dereference of that pointer:
the call does not return with only the handle's offset changed. For
`sys_read` and `sys_write` the frame does hold on every input: the table is
unchanged, the same handles are live with the same vnode, mode and count,
and only the handle slot `fd` refers to can have another offset. -/
theorem sys_lseek_end_breaks_frame (ops : vnode_ops) (st : kstate) (fd buf size : Int) :
    ((sized_ops 100).VOP_STAT 7 = (0, 100) ∧
      (sys_lseek (sized_ops 100) (one_file (file_at 5 1)) 3 0 SEEK_END).result = none ∧
      (sys_lseek (sized_ops 100) (one_file (file_at 5 1)) 3 0 SEEK_END).state.trace =
        [event.lock_acquire 100, event.VOP_STAT 7]) ∧
    offset_frame (st.slot fd) st (sys_read ops st fd buf size).state ∧
    offset_frame (st.slot fd) st (sys_write ops st fd buf size).state :=
  ⟨by decide, sys_read_frame ops st fd buf size, sys_write_frame ops st fd buf size⟩

/-- C17: if every handle a slot refers to is live with `ref_count` equal to the number
of slots that refer to it, then `sys_dup2(oldfd, newfd)` with
`oldfd != newfd` returns, and the same holds in the state it ends in: when it
fails, when `newfd` was empty, when `newfd` held another handle (released,
and destroyed if that was its last slot), and when `newfd` already referred
to the handle of `oldfd`. -/
theorem sys_dup2_ref_counts (st : kstate) (oldfd newfd : Int) (hinv : refs_ok st)
    (hne : oldfd ≠ newfd) :
    (∃ st1 r v, sys_dup2 st oldfd newfd = .ret st1 r v) ∧
    refs_ok (sys_dup2 st oldfd newfd).state := by
  by_cases hrange : oldfd < 0 ∨ newfd < 0 ∨ newfd ≥ __OPEN_MAX ∨ oldfd ≥ __OPEN_MAX
  · have e : sys_dup2 st oldfd newfd = .ret st EBADF none := by
      simp only [sys_dup2, hrange, if_true]
    rw [e]
    exact ⟨⟨_, _, _, rfl⟩, hinv⟩
  · cases hslot : st.file_handles oldfd.toNat with
    | none =>
      have e : sys_dup2 st oldfd newfd = .ret st EBADF none := by
        simp only [sys_dup2, hrange, if_false, hslot]
      rw [e]
      exact ⟨⟨_, _, _, rfl⟩, hinv⟩
    | some a =>
      have hO : oldfd.toNat < __OPEN_MAX.toNat := by
        unfold __OPEN_MAX at hrange ⊢
        omega
      have hN : newfd.toNat < __OPEN_MAX.toNat := by
        unfold __OPEN_MAX at hrange ⊢
        omega
      have hidx : oldfd.toNat ≠ newfd.toNat :=
        toNat_ne_of_ne oldfd newfd (by omega) (by omega) hne
      obtain ⟨h, hlive, hrc⟩ := hinv oldfd.toNat a hO hslot
      cases hnew : st.file_handles newfd.toNat with
      | none =>
        obtain ⟨tr, e⟩ := sys_dup2_into_empty st oldfd newfd a h hrange hslot hlive hnew
        rw [e]
        refine ⟨⟨_, _, _, rfl⟩, ?_⟩
        simp only [outcome.state]
        apply refs_ok_install
        rintro c ⟨i, hi, hs⟩
        by_cases hca : c = a
        · subst hca
          refine ⟨_, Function.update_same _ _ _, ?_⟩
          simp [hN, hnew, hrc]
        · have hin : i ≠ newfd.toNat := by
            intro e1
            rw [e1, Function.update_same] at hs
            exact hca (Option.some.inj hs).symm
          rw [Function.update_noteq hin] at hs
          obtain ⟨hc, hclive, hcrc⟩ := hinv i c hi hs
          refine ⟨hc, ?_, ?_⟩
          · rw [Function.update_noteq hca]
            exact hclive
          · have hac : ¬ a = c := fun e1 => hca e1.symm
            simp [hN, hnew, hcrc, hac]
      | some b =>
        by_cases hba : b = a
        · subst hba
          have h2 : 2 ≤ slot_count st b :=
            count_below_two st.file_handles b _ oldfd.toNat newfd.toNat hO hN hidx hslot hnew
          have hnz : h.ref_count - 1 ≠ 0 := by omega
          obtain ⟨tr, e⟩ := sys_dup2_over_same st oldfd newfd b h hrange hslot hlive hnew hnz
          rw [e]
          refine ⟨⟨_, _, _, rfl⟩, ?_⟩
          simp only [outcome.state]
          apply refs_ok_install
          rintro c ⟨i, hi, hs⟩
          by_cases hca : c = b
          · subst hca
            refine ⟨_, Function.update_same _ _ _, ?_⟩
            simp [hN, hnew, hrc]
          · have hin : i ≠ newfd.toNat := by
              intro e1
              rw [e1, Function.update_same] at hs
              exact hca (Option.some.inj hs).symm
            rw [Function.update_noteq hin] at hs
            obtain ⟨hc, hclive, hcrc⟩ := hinv i c hi hs
            refine ⟨hc, ?_, ?_⟩
            · rw [Function.update_noteq hca]
              exact hclive
            · have hac : ¬ b = c := fun e1 => hca e1.symm
              simp [hN, hnew, hcrc, hac]
        · obtain ⟨g, hg, hgrc⟩ := hinv newfd.toNat b hN hnew
          obtain ⟨tr, e⟩ :=
            sys_dup2_over_other st oldfd newfd a b h g hrange hslot hlive hnew hg hba
          rw [e]
          refine ⟨⟨_, _, _, rfl⟩, ?_⟩
          simp only [outcome.state]
          apply refs_ok_install
          rintro c ⟨i, hi, hs⟩
          have hab : ¬ a = b := fun e1 => hba e1.symm
          by_cases hca : c = a
          · subst hca
            refine ⟨_, Function.update_same _ _ _, ?_⟩
            simp [hN, hnew, hrc, hba]
          · have hin : i ≠ newfd.toNat := by
              intro e1
              rw [e1, Function.update_same] at hs
              exact hca (Option.some.inj hs).symm
            rw [Function.update_noteq hin] at hs
            have hac : ¬ a = c := fun e1 => hca e1.symm
            by_cases hcb : c = b
            · subst hcb
              have h2 : 2 ≤ slot_count st c :=
                count_below_two st.file_handles c _ i newfd.toNat hi hN hin hs hnew
              have hnz : g.ref_count - 1 ≠ 0 := by omega
              refine ⟨{ g with ref_count := g.ref_count - 1, flock := false }, ?_, ?_⟩
              · rw [Function.update_noteq hca, Function.update_same]
                simp [hnz]
              · simp [hN, hnew, hgrc, hac]
                omega
            · obtain ⟨hc, hclive, hcrc⟩ := hinv i c hi hs
              refine ⟨hc, ?_, ?_⟩
              · rw [Function.update_noteq hca, Function.update_noteq hcb]
                exact hclive
              · have hbc : ¬ b = c := fun e1 => hcb e1.symm
                simp [hN, hnew, hcrc, hac, hbc]

/-- Witness of C17: in the standard table descriptors 1 and 2 refer to the same handle;
`sys_dup2(1, 2)` returns and the invariant holds afterwards, the console
handle still having count 3. -/
theorem sys_dup2_ref_counts_witness :
    refs_ok (sys_dup2 (std_table (file_at 7 1)) 1 2).state ∧
    ((sys_dup2 (std_table (file_at 7 1)) 1 2).state.heap 10).map file_handle.ref_count =
      some 3 :=
  ⟨(sys_dup2_ref_counts (std_table (file_at 7 1)) 1 2 std_table_refs_ok (by decide)).2,
    by decide⟩

end FileSyscalls
